import Mathlib

/-! Verification development for the kolibri-installer-gnome desktop
integration layer.  The Python sources are shallowly embedded:
strings are Lean strings (sequences of characters), optional values
are `Option`, Python exceptions become `Except`, and stateful event
handlers become explicit state-transition functions.  External
services (message bus, the content service HTTP API, the filesystem)
are passed in as function parameters.
-/

/-! Section: Python string primitives used by the sources -/

/-- Model of the Python test `s.startswith(pre)`: `listStartsWith pre.data s.data`. -/
def listStartsWith : List Char → List Char → Bool
  | [], _ => true
  | _ :: _, [] => false
  | p :: ps, c :: cs => p == c && listStartsWith ps cs

/-- Model of Python `url.startswith(pre)`. -/
def strStartsWith (s pre : String) : Bool :=
  listStartsWith pre.data s.data

/-- The part of the list strictly before the first occurrence of `sep`;
the whole list when `sep` is absent.  Together with `partAfter` this
models the projections of Python `s.partition(sep)` that the sources use. -/
def partBefore (sep : Char) : List Char → List Char
  | [] => []
  | c :: cs => if c = sep then [] else c :: partBefore sep cs

/-- The part of the list strictly after the first occurrence of `sep`;
empty when `sep` is absent (as in Python `s.partition(sep)[2]`). -/
def partAfter (sep : Char) : List Char → List Char
  | [] => []
  | c :: cs => if c = sep then cs else partAfter sep cs

/-- Split at the first occurrence of `sep`: `none` when absent,
otherwise the pieces before and after it. -/
def findSplit (sep : Char) : List Char → Option (List Char × List Char)
  | [] => none
  | c :: cs =>
    if c = sep then some ([], cs)
    else
      match findSplit sep cs with
      | some (b, a) => some (c :: b, a)
      | none => none

/-- Model of Python `s.strip(c)` for a single strip character. -/
def stripCh (ch : Char) (l : List Char) : List Char :=
  ((l.dropWhile (fun x => x == ch)).reverse.dropWhile (fun x => x == ch)).reverse

/-- Split a list at every occurrence of `sep` (Python `s.split(sep)`). -/
def splitAll (sep : Char) : List Char → List (List Char)
  | [] => [[]]
  | c :: cs =>
    match splitAll sep cs with
    | [] => [[]]
    | h :: t => if c = sep then [] :: h :: t else (c :: h) :: t

/-- A single-quote character, used by the model of Python list repr. -/
def pyQuote : String := String.mk [Char.ofNat 39]

/-- Model of Python `str(vs)` for a list `vs` of strings that contain no
quotes, backslashes or unprintable characters (all inputs relevant here):
each element is wrapped in single quotes, elements are comma separated,
the whole is bracketed. -/
def pyListReprItems : List String → String
  | [] => ""
  | [v] => pyQuote ++ v ++ pyQuote
  | v :: rest => pyQuote ++ v ++ pyQuote ++ ", " ++ pyListReprItems rest

/-- Model of Python `str(...)` applied to a list of plain strings. -/
def pyListRepr (vs : List String) : String :=
  "[" ++ pyListReprItems vs ++ "]"

/-- Model of Python `str(x)` for `x` an optional string (`None` prints as
the four characters `None`). -/
def pyStr (o : Option String) : String :=
  match o with
  | none => "None"
  | some s => s

/-- Python truthiness of a value that is either `None` or a string. -/
def pyTruthy (o : Option String) : Bool :=
  match o with
  | none => false
  | some s => !(s.isEmpty)

/-! Section: Model of `urllib.parse.urlsplit`

The sources hand every externally supplied URL to the standard library
function `urlsplit`.  The model below follows the CPython (3.6+)
algorithm: an optional scheme made of letters, digits and `+`, `-`, `.`
before the first colon; a network location after a double slash,
delimited by `/`, `?` or `#`; then the fragment is split off at the
first `#` and the query at the first `?`. -/

/-- Characters CPython accepts inside a URL scheme. -/
def isSchemeChar (c : Char) : Bool :=
  c.isAlpha || c.isDigit || c == '+' || c == '-' || c == '.'

structure UrlSplitRes where
  scheme : String
  netloc : String
  path : String
  query : String
  fragment : String
deriving DecidableEq

/-- Model of `urllib.parse.urlsplit`. -/
def urlsplit (url : String) : UrlSplitRes :=
  let p1 : List Char × List Char :=
    match findSplit ':' url.data with
    | some (b, a) =>
      if !b.isEmpty && b.all isSchemeChar then (b.map Char.toLower, a) else ([], url.data)
    | none => ([], url.data)
  let schemeData := p1.1
  let p2 : List Char × List Char :=
    match p1.2 with
    | '/' :: '/' :: r =>
      (r.takeWhile (fun c => c != '/' && c != '?' && c != '#'),
       r.dropWhile (fun c => c != '/' && c != '?' && c != '#'))
    | rest => ([], rest)
  let netlocData := p2.1
  let fragData := partAfter '#' p2.2
  let restNoFrag := partBefore '#' p2.2
  { scheme := String.mk schemeData
    netloc := String.mk netlocData
    path := String.mk (partBefore '?' restNoFrag)
    query := String.mk (partAfter '?' restNoFrag)
    fragment := String.mk fragData }

/-! Section: C1: `KolibriServiceManager.is_kolibri_app_url`
(src/kolibri_gnome/kolibri_service/kolibri_service.py, lines 172-186).
`KOLIBRI_BASE_URL` is configuration read from the environment and is
passed here as the parameter `base_url`. -/

/-- Embedding of `KolibriServiceManager.is_kolibri_app_url`.  Python
`not url` on a string is true exactly for the empty string. -/
def is_kolibri_app_url (base_url url : String) : Bool :=
  if url = "" then false
  else if !(strStartsWith url base_url) then false
  else if strStartsWith url (base_url ++ "static/") then false
  else if strStartsWith url (base_url ++ "downloadcontent/") then false
  else if strStartsWith url (base_url ++ "content/storage/") then false
  else true

/-! Section: Model of `urllib.parse.parse_qs` with `keep_blank_values=True`

Only the subset exercised by the sources is modelled: the query is
split at ampersands, empty segments are dropped, a segment without an
equals sign keeps a blank value.  Percent escapes and plus signs do not
occur in the inputs of interest and are not decoded. -/

/-- The ordered name/value pairs of a query string. -/
def parse_qs_pairs (q : List Char) : List (String × String) :=
  (splitAll '&' q).filterMap (fun seg =>
    if seg.isEmpty then none
    else
      match findSplit '=' seg with
      | some (n, v) => some (String.mk n, String.mk v)
      | none => some (String.mk seg, ""))

/-- Dictionary lookup on the result of `parse_qs`: the list of values
stored under `key`, empty when the key is absent. -/
def parse_qs_get (q : List (String × String)) (key : String) : List String :=
  (q.filter (fun p => p.1 == key)).map (fun p => p.2)

/-! Section: C3: `Application.parse_kolibri_url`
(src/kolibri_gnome/desktop_launcher/application.py, lines 719-755).
The embedding stops at the relative target the method builds, returned
as the pair (item_path, item_fragment); the real method then combines
them as path-hash-fragment and hands the result to the daemon proxy
method `get_kolibri_initialize_url`, which is outside this claim.
Raising `ValueError` is modelled as `Except.error ()`. -/

def parse_kolibri_url_target (url : String) : Except Unit (String × String) :=
  let t := urlsplit url
  let url_query := parse_qs_pairs t.query.data
  if t.scheme ≠ "kolibri" then Except.error ()
  else
    let pathFrag : String × String :=
      if t.path ≠ "" ∧ t.path ≠ "/" then
        ("/learn", "/topics/" ++ String.mk (t.path.data.dropWhile (fun c => c == '/')))
      else if t.query ≠ "" then ("/learn", "/search")
      else ("/", "")
    let frag : String :=
      match parse_qs_get url_query "searchTerm" with
      | [] => pathFrag.2
      | vs => pathFrag.2 ++ "?searchTerm=" ++ pyListRepr vs
    Except.ok (pathFrag.1, frag)

/-! Section: Model of `urllib.parse.urlunparse` as called by the launcher

CPython builds the result from the six components; the launcher passes
`None` for several of them, so each slot is an optional string and
emptiness tests follow Python truthiness. -/

def urlunsplit_model (scheme netloc : Option String) (url0 query fragment : Option String) :
    String :=
  let url := url0.getD ""
  let url :=
    if pyTruthy netloc || (!url.isEmpty && strStartsWith url "//") then
      "//" ++ netloc.getD "" ++
        (if !url.isEmpty && !(strStartsWith url "/") then "/" ++ url else url)
    else url
  let url := if pyTruthy scheme then scheme.getD "" ++ ":" ++ url else url
  let url := if pyTruthy query then url ++ "?" ++ query.getD "" else url
  if pyTruthy fragment then url ++ "#" ++ fragment.getD "" else url

def urlunparse_model (scheme netloc url params query fragment : Option String) : String :=
  let url := if pyTruthy params then some (url.getD "" ++ ";" ++ params.getD "") else url
  urlunsplit_model scheme netloc url query fragment

/-! Section: C4: `Launcher.handle_uri`
(src/kolibri_gnome/launcher/application.py, lines 30-64).
The method either returns without launching anything (modelled as
`none`) or spawns the windowed binary with the argument list built
below (modelled as `some args`; the actual call prepends the binary
name `kolibri-gnome`). -/

/-- The argument-list construction of `handle_uri` after the scheme
dispatch: the channel id is always a string here, the node path and
query are optional strings. -/
def handle_uri_args (channel_id : String) (node_path node_query : Option String) :
    List String :=
  let node_query := if !channel_id.isEmpty then none else node_query
  let args : List String :=
    if !channel_id.isEmpty && channel_id != "_" then ["--channel-id", channel_id] else []
  if pyTruthy node_path || pyTruthy node_query then
    args ++ [urlunparse_model (some "kolibri") node_path (some "") none node_query none]
  else args

def handle_uri (uri : String) : Option (List String) :=
  let t := urlsplit uri
  if t.scheme = "kolibri-channel" then
    some (handle_uri_args (String.mk (stripCh '/' t.path.data)) none none)
  else if t.scheme = "x-kolibri-dispatch" then
    some (handle_uri_args t.netloc (some t.path) (some t.query))
  else none

/-! Section: C5: `get_localized_file`
(src/kolibri_gnome/desktop_launcher/utils.py, lines 6-25).
The filesystem (`os.path.exists`) is the parameter `path_exists`; the
ambient `get_current_language()` value is the parameter `language`
(`none` for Python `None`); `file_path_template` stands for the
one-slot format string, applied to a language code by
`file_path_template.format(...)`. -/

/-- Python `language.split(chr(95), 1)[0]`: the part of the language code
before the first underscore. -/
def langBase (l : String) : String :=
  String.mk (l.data.takeWhile (fun c => c != '_'))

def get_localized_file (path_exists : String → Bool) (language : Option String)
    (file_path_template : String → String) (file_path_fallback : String) : String :=
  match language with
  | none => file_path_fallback
  | some lang =>
    if lang = "" then file_path_fallback
    else
      let file_path := file_path_template lang
      let file_path :=
        if !(path_exists file_path) then file_path_template (langBase lang) else file_path
      if !(path_exists file_path) then file_path_fallback else file_path

/-! Section: C6: `KolibriServiceContext`
(src/kolibri_gnome/kolibri_service/kolibri_service.py, lines 15-132).
Each accessor is a shared `multiprocessing` value plus a one-shot set
event.  A `ctypes.c_bool` cell accepts any object by truthiness, so
storing `None` stores `False`; the 32-byte `c_char` array for the app
key is written through `bytes(app_key, encoding=ascii)`, which raises
`TypeError` for `None`, `UnicodeEncodeError` for non-ASCII text and
`ValueError` when more than 32 bytes are assigned.  Reading the array
value stops at the first NUL byte. -/

inductive PyErr where
  | typeError
  | valueError
  | unicodeEncodeError
deriving DecidableEq

structure BoolField where
  value : Bool
  eventIsSet : Bool
deriving DecidableEq

/-- The getter pattern shared by `is_starting`, `is_stopped`,
`setup_result` and `is_responding`. -/
def boolFieldGet (f : BoolField) : Option Bool :=
  if f.eventIsSet then some f.value else none

/-- The setter pattern shared by the four boolean accessors: store the
truthiness of the value, then clear the event for `None` and set it
otherwise. -/
def boolFieldSet (_f : BoolField) (v : Option Bool) : BoolField :=
  { value := match v with | none => false | some b => b
    eventIsSet := match v with | none => false | some _ => true }

structure AppKeyField where
  bytesVal : List Char
  eventIsSet : Bool
deriving DecidableEq

def APP_KEY_LENGTH : Nat := 32

/-- The `app_key` setter: `bytes(app_key, encoding=ascii)` is evaluated
first, so a `None` value raises before the event-clearing branch is
reached. -/
def appKeyFieldSet (f : AppKeyField) (v : Option String) : Except PyErr AppKeyField :=
  match v with
  | none => Except.error PyErr.typeError
  | some s =>
    if !(s.data.all (fun c => c.toNat < 128)) then Except.error PyErr.unicodeEncodeError
    else if APP_KEY_LENGTH < s.data.length then Except.error PyErr.valueError
    else Except.ok { f with bytesVal := s.data, eventIsSet := true }

/-- The `app_key` getter: decode the stored bytes (up to the first NUL)
once the set event has fired. -/
def appKeyFieldGet (f : AppKeyField) : Option String :=
  if f.eventIsSet then some (String.mk (f.bytesVal.takeWhile (fun c => c != Char.ofNat 0)))
  else none

structure ServiceContext where
  is_starting_field : BoolField
  is_stopped_field : BoolField
  setup_result_field : BoolField
  is_responding_field : BoolField
  app_key_field : AppKeyField
deriving DecidableEq

def context_is_starting (ctx : ServiceContext) : Option Bool := boolFieldGet ctx.is_starting_field
def context_set_is_starting (ctx : ServiceContext) (v : Option Bool) : ServiceContext :=
  { ctx with is_starting_field := boolFieldSet ctx.is_starting_field v }

def context_is_stopped (ctx : ServiceContext) : Option Bool := boolFieldGet ctx.is_stopped_field
def context_set_is_stopped (ctx : ServiceContext) (v : Option Bool) : ServiceContext :=
  { ctx with is_stopped_field := boolFieldSet ctx.is_stopped_field v }

def context_setup_result (ctx : ServiceContext) : Option Bool := boolFieldGet ctx.setup_result_field
def context_set_setup_result (ctx : ServiceContext) (v : Option Bool) : ServiceContext :=
  { ctx with setup_result_field := boolFieldSet ctx.setup_result_field v }

def context_is_responding (ctx : ServiceContext) : Option Bool :=
  boolFieldGet ctx.is_responding_field
def context_set_is_responding (ctx : ServiceContext) (v : Option Bool) : ServiceContext :=
  { ctx with is_responding_field := boolFieldSet ctx.is_responding_field v }

def context_app_key (ctx : ServiceContext) : Option String := appKeyFieldGet ctx.app_key_field
def context_set_app_key (ctx : ServiceContext) (v : Option String) : Except PyErr ServiceContext :=
  (appKeyFieldSet ctx.app_key_field v).map (fun f => { ctx with app_key_field := f })

/-! Section: C2: `Application.__kolibri_daemon_on_notify`
(src/kolibri_gnome/desktop_launcher/application.py, lines 575-601).
The handler is a state transition on the three application fields it
reads and writes, observing the proxy (name owner, started and error
predicates) and emitting the remote calls `hold` and `start`. -/

structure NotifyState where
  starting_kolibri : Bool
  owner : Option String
  has_error : Bool
deriving DecidableEq

structure DaemonObs where
  owner : Option String
  is_started : Bool
  is_error : Bool
deriving DecidableEq

inductive DaemonCall where
  | hold
  | start
deriving DecidableEq, BEq

def kolibri_daemon_on_notify (st : NotifyState) (obs : DaemonObs) :
    NotifyState × List DaemonCall :=
  if st.has_error then (st, [])
  else
    let owner_changed : Bool := decide (st.owner ≠ obs.owner)
    let st1 : NotifyState := { st with owner := obs.owner }
    let hold_calls : List DaemonCall := if owner_changed then [DaemonCall.hold] else []
    let st2 : NotifyState :=
      if owner_changed then { st1 with starting_kolibri := false } else st1
    if st2.starting_kolibri && obs.is_started then
      ({ st2 with starting_kolibri := false }, hold_calls)
    else if st2.starting_kolibri then
      (st2, hold_calls)
    else if !obs.is_error || owner_changed then
      ({ st2 with starting_kolibri := true }, hold_calls ++ [DaemonCall.start])
    else
      (st2, hold_calls)

/-- Run the notification handler over a sequence of observations,
concatenating the remote calls it issues. -/
def run_notify (st : NotifyState) : List DaemonObs → NotifyState × List DaemonCall
  | [] => (st, [])
  | obs :: rest =>
    let r1 := kolibri_daemon_on_notify st obs
    let r2 := run_notify r1.1 rest
    (r2.1, r1.2 ++ r2.2)

/-- Number of occurrences of a given remote call in a call list. -/
def countCalls (c : DaemonCall) (l : List DaemonCall) : Nat :=
  (l.filter (fun x => x == c)).length

/-! Section: C7: `KolibriView.load_url`
(src/kolibri_gnome/desktop_launcher/application.py, lines 135-157).
The delegate is the application seen through the per-window wrapper;
its predicates and the loader URL are a record of parameters.  The
inherited `super().load_url` navigation is modelled by updating the
displayed URL and recording a `superLoad` effect; `present_window`
is recorded as an effect as well. -/

structure ViewDelegate where
  loader_url : String
  is_error : Bool
  is_started : Bool
  get_full_url : String → String

structure ViewState where
  current_url : String
  target_url : Option String
deriving DecidableEq

inductive ViewEffect where
  | superLoad (url : String)
  | presentWindow
deriving DecidableEq

def kolibri_view_load_url (d : ViewDelegate) (st : ViewState) (url : String) :
    ViewState × List ViewEffect :=
  if d.is_error then
    let st1 : ViewState := { st with target_url := some url }
    let error_url := d.loader_url ++ "#error"
    if st1.current_url ≠ error_url then
      ({ st1 with current_url := error_url }, [ViewEffect.superLoad error_url])
    else (st1, [])
  else if !d.is_started then
    let st1 : ViewState := { st with target_url := some url }
    let loading_url := d.loader_url ++ "#loading"
    if st1.current_url ≠ loading_url then
      ({ st1 with current_url := loading_url }, [ViewEffect.superLoad loading_url])
    else (st1, [])
  else
    let full_url := d.get_full_url url
    if st.current_url ≠ full_url then
      ({ current_url := full_url, target_url := none },
       [ViewEffect.superLoad full_url, ViewEffect.presentWindow])
    else (st, [])

/-- Repeated calls to `load_url`, collecting the emitted effects. -/
def load_url_seq (d : ViewDelegate) (st : ViewState) : List String → ViewState × List ViewEffect
  | [] => (st, [])
  | u :: us =>
    let r1 := kolibri_view_load_url d st u
    let r2 := load_url_seq d r1.1 us
    (r2.1, r1.2 ++ r2.2)

/-! Section: C8 and C10: the search handler
(src/kolibri_gnome/kolibri_daemon/kolibri_search_handler.py).
A content node record is either a well-formed mapping with the string
fields the handler reads (each possibly absent, as `dict.get` returns
`None`) or not a mapping at all.  The content service itself is
external: the search endpoint is the parameter `searchApi` (arguments:
search term, max_results) and the single-node retrieval endpoint is the
parameter `lookup`. -/

structure NodeData where
  id : Option String
  channel_id : Option String
  kind : Option String
  title : Option String
  description : Option String

inductive NodeResult where
  | mapping (d : NodeData)
  | notMapping

/-- Embedding of `SearchHandler._node_data_to_item_id` (lines 39-53):
kind-code `t` for topic nodes, `c` otherwise, then the node id, a
question mark and the channel id. -/
def node_data_to_item_id (d : NodeData) : String :=
  if d.kind = some "topic" then
    "t/" ++ pyStr d.id ++ "?" ++ pyStr d.channel_id
  else
    "c/" ++ pyStr d.id ++ "?" ++ pyStr d.channel_id

/-- Embedding of `SearchHandler._item_id_to_node_id` (lines 55-64):
partition at the first slash, then keep what precedes the first
question mark. -/
def item_id_to_node_id (item_id : String) : String :=
  String.mk (partBefore '?' (partAfter '/' item_id.data))

/-- `NODE_ICON_LOOKUP.get(kind, DEFAULT_NODE_ICON)` (lines 8-18). -/
def node_icon_lookup (kind : Option String) : String :=
  match kind with
  | some "video" => "video-x-generic"
  | some "exercise" => "edit-paste"
  | some "document" => "x-office-document"
  | some "topic" => "folder"
  | some "audio" => "audio-x-generic"
  | some "html5" => "text-html"
  | some "slideshow" => "image-x-generic"
  | _ => "application-x-executable"

structure SearchMetadata where
  id : String
  name : Option String
  description : Option String
  gicon : String

/-- Embedding of `SearchHandler._node_data_to_search_metadata`
(lines 66-84): `None` for records that are not mappings, otherwise the
GNOME Shell search-provider record keyed by the requested item id. -/
def node_data_to_search_metadata (item_id : String) (r : NodeResult) : Option SearchMetadata :=
  match r with
  | NodeResult.notMapping => none
  | NodeResult.mapping d =>
    some { id := item_id, name := d.title, description := d.description,
           gicon := node_icon_lookup d.kind }

/-- Embedding of `LocalSearchHandler._get_metadata_for_item_id`
(lines 146-158): decode the node id, retrieve the node, convert. -/
def get_metadata_for_item_id (lookup : String → NodeResult) (item_id : String) :
    Option SearchMetadata :=
  node_data_to_search_metadata item_id (lookup (item_id_to_node_id item_id))

/-- Embedding of `LocalSearchHandler.get_metadata_for_item_ids`
(lines 124-132): map each id over the worker pool in input order, then
filter out the unresolved (`None`) entries. -/
def get_metadata_for_item_ids (lookup : String → NodeResult) (item_ids : List String) :
    List SearchMetadata :=
  (item_ids.map (get_metadata_for_item_id lookup)).filterMap (fun m => m)

/-- Embedding of `LocalSearchHandler._get_item_ids_for_search`
(lines 134-144): query the search endpoint with `max_results` 10 and
encode each returned node record as an item id. -/
def get_item_ids_for_search (searchApi : String → Nat → List NodeData) (search : String) :
    List String :=
  (searchApi search 10).map node_data_to_item_id

/-! Section: C9: `Application.is_internal_url` and `Application.should_load_url`
(src/kolibri_gnome/desktop_launcher/application.py, lines 659-684).
The daemon proxy URL classifier is the parameter
`daemon_is_kolibri_app_url`; the optional window argument is the
window `accepts_url` predicate (absent when no window was supplied). -/

structure AppUrlModel where
  loader_url : String
  started : Bool
  daemon_is_kolibri_app_url : String → Bool

def app_is_internal_url (app : AppUrlModel) (window_accepts : Option (String → Bool))
    (url : String) : Bool :=
  let t := urlsplit url
  if t.scheme = "kolibri" ∨ t.scheme = "x-kolibri-app" then true
  else if app.daemon_is_kolibri_app_url url then
    if strStartsWith t.path "/app/" then true
    else
      match window_accepts with
      | some accepts => accepts url
      | none => true
  else if url = app.loader_url then !app.started
  else false

def app_should_load_url (app : AppUrlModel) (window_accepts : Option (String → Bool))
    (url : String) : Bool :=
  let t := urlsplit url
  if app_is_internal_url app window_accepts url then true
  else if t.scheme = "about" ∨ url = app.loader_url then true
  else false

/-! Section: Theorems -/

/-- C1: for every URL that starts with the configured base URL,
`is_kolibri_app_url` is true except when the URL continues with
`static/`, `downloadcontent/` or `content/storage/` after the base
(given that the URL starts with the base, continuing with such a
segment is the same as starting with the base concatenated with it);
an empty URL and a URL that does not start with the base yield false. -/
theorem is_kolibri_app_url_spec (base_url url : String) :
    (url = "" → is_kolibri_app_url base_url url = false) ∧
    (strStartsWith url base_url = false → is_kolibri_app_url base_url url = false) ∧
    (url ≠ "" → strStartsWith url base_url = true →
      is_kolibri_app_url base_url url =
        (!(strStartsWith url (base_url ++ "static/")) &&
         !(strStartsWith url (base_url ++ "downloadcontent/")) &&
         !(strStartsWith url (base_url ++ "content/storage/")))) := by
  refine ⟨fun h => ?_, fun h => ?_, fun h1 h2 => ?_⟩
  · simp [is_kolibri_app_url, h]
  · unfold is_kolibri_app_url
    by_cases he : url = ""
    · simp [he]
    · simp [he, h]
  · unfold is_kolibri_app_url
    simp only [h1, h2, if_false, ite_false, Bool.not_true, Bool.not_false]
    cases hs1 : strStartsWith url (base_url ++ "static/") <;>
      cases hs2 : strStartsWith url (base_url ++ "downloadcontent/") <;>
        cases hs3 : strStartsWith url (base_url ++ "content/storage/") <;>
          simp [h1]

/-- Witness for C1 at the base URL of the specification example. -/
theorem is_kolibri_app_url_spec_witness :
    ("http://127.0.0.1:1234/learn" ≠ "") ∧
    strStartsWith "http://127.0.0.1:1234/learn" "http://127.0.0.1:1234/" = true ∧
    is_kolibri_app_url "http://127.0.0.1:1234/" "http://127.0.0.1:1234/learn" =
      (!(strStartsWith "http://127.0.0.1:1234/learn"
          ("http://127.0.0.1:1234/" ++ "static/")) &&
       !(strStartsWith "http://127.0.0.1:1234/learn"
          ("http://127.0.0.1:1234/" ++ "downloadcontent/")) &&
       !(strStartsWith "http://127.0.0.1:1234/learn"
          ("http://127.0.0.1:1234/" ++ "content/storage/"))) :=
  ⟨by decide, by decide,
   (is_kolibri_app_url_spec "http://127.0.0.1:1234/" "http://127.0.0.1:1234/learn").2.2
     (by decide) (by decide)⟩

theorem countCalls_append (c : DaemonCall) (l1 l2 : List DaemonCall) :
    countCalls c (l1 ++ l2) = countCalls c l1 + countCalls c l2 := by
  simp [countCalls, List.filter_append]

/-- First notification of an ownership epoch: one hold and one start
are issued and the start-in-flight flag is raised. -/
theorem on_notify_new_owner (st : NotifyState) (obs : DaemonObs)
    (hE : st.has_error = false) (hO : st.owner ≠ obs.owner) :
    kolibri_daemon_on_notify st obs =
      ({ starting_kolibri := true, owner := obs.owner, has_error := false },
       [DaemonCall.hold, DaemonCall.start]) := by
  unfold kolibri_daemon_on_notify
  simp [hE, hO]

/-- While the owner is unchanged the handler never issues a hold and
preserves the owner and error fields. -/
theorem on_notify_no_hold (st : NotifyState) (obs : DaemonObs)
    (hE : st.has_error = false) (hO : st.owner = obs.owner) :
    countCalls DaemonCall.hold (kolibri_daemon_on_notify st obs).2 = 0 ∧
    (kolibri_daemon_on_notify st obs).1.owner = obs.owner ∧
    (kolibri_daemon_on_notify st obs).1.has_error = false := by
  unfold kolibri_daemon_on_notify
  cases hs : st.starting_kolibri <;> cases hi : obs.is_started <;>
    cases he2 : obs.is_error <;>
      simp [hE, hO, hs, hi, he2, countCalls] <;> decide

/-- While a start is in flight and the daemon is not yet started, a
notification with an unchanged owner does nothing. -/
theorem on_notify_pass (st : NotifyState) (obs : DaemonObs)
    (hE : st.has_error = false) (hO : st.owner = obs.owner)
    (hS : st.starting_kolibri = true) (hN : obs.is_started = false) :
    kolibri_daemon_on_notify st obs = (st, []) := by
  unfold kolibri_daemon_on_notify
  cases st with
  | mk sk ow he =>
    cases obs with
    | mk oow ost oerr =>
      simp_all

theorem run_notify_cons (st : NotifyState) (obs : DaemonObs) (l : List DaemonObs) :
    run_notify st (obs :: l) =
      ((run_notify (kolibri_daemon_on_notify st obs).1 l).1,
       (kolibri_daemon_on_notify st obs).2 ++
         (run_notify (kolibri_daemon_on_notify st obs).1 l).2) := rfl

/-- Over any notification sequence with a fixed owner no hold is issued. -/
theorem run_notify_stable_owner (o : Option String) :
    ∀ (l : List DaemonObs) (st : NotifyState),
      st.has_error = false → st.owner = o → (∀ x ∈ l, x.owner = o) →
      countCalls DaemonCall.hold (run_notify st l).2 = 0 := by
  intro l
  induction l with
  | nil => intro st _ _ _; simp [run_notify, countCalls]
  | cons obs rest ih =>
    intro st h1 h2 h3
    have hobs : obs.owner = o := h3 obs (by simp)
    have hno := on_notify_no_hold st obs h1 (by rw [h2, hobs])
    rw [run_notify_cons, countCalls_append, hno.1]
    have := ih (kolibri_daemon_on_notify st obs).1 hno.2.2 (by rw [hno.2.1, hobs])
      (fun x hx => h3 x (by simp [hx]))
    omega

/-- Before the daemon is first observed started, a raised in-flight
flag makes the handler a no-op for every further notification. -/
theorem run_notify_pass (o : Option String) :
    ∀ (l : List DaemonObs) (st : NotifyState),
      st.has_error = false → st.owner = o → st.starting_kolibri = true →
      (∀ x ∈ l, x.owner = o ∧ x.is_started = false) →
      run_notify st l = (st, []) := by
  intro l
  induction l with
  | nil => intro st _ _ _ _; rfl
  | cons obs rest ih =>
    intro st h1 h2 h3 h4
    have hx := h4 obs (by simp)
    have hstep := on_notify_pass st obs h1 (by rw [h2, hx.1]) h3 hx.2
    rw [run_notify_cons, hstep]
    simp [ih st h1 h2 h3 (fun x hx2 => h4 x (by simp [hx2]))]

/-- C2 counterexample: in a single ownership epoch (owner constant)
the daemon is observed STARTED at the second notification, yet the
third notification, with the same owner and the daemon still STARTED
and not in error, issues a further start call: the whole trace emits
hold, start, start. -/
theorem reconcile_start_after_started :
    (run_notify (NotifyState.mk false none false)
      [DaemonObs.mk (some "own1") false false,
       DaemonObs.mk (some "own1") true false,
       DaemonObs.mk (some "own1") true false]).2
      = [DaemonCall.hold, DaemonCall.start, DaemonCall.start] ∧
    (kolibri_daemon_on_notify
      (run_notify (NotifyState.mk false none false)
        [DaemonObs.mk (some "own1") false false,
         DaemonObs.mk (some "own1") true false]).1
      (DaemonObs.mk (some "own1") true false)).2 = [DaemonCall.start] := by
  decide

/-- C2 (amended): within one ownership epoch (no transport error, the
first notification observes a new owner, every later one the same
owner) exactly one hold is issued over the whole epoch, and at most
one start is issued over the prefix of notifications strictly before
the daemon is first observed started.  Once started, later
notifications may issue start again (see the counterexample). -/
theorem reconcile_epoch_amended (st0 : NotifyState) (first : DaemonObs)
    (rest : List DaemonObs)
    (hE : st0.has_error = false)
    (hNew : st0.owner ≠ first.owner)
    (hRest : ∀ x ∈ rest, x.owner = first.owner) :
    countCalls DaemonCall.hold (run_notify st0 (first :: rest)).2 = 1 ∧
    countCalls DaemonCall.start
      (run_notify st0 ((first :: rest).takeWhile (fun x => !x.is_started))).2 ≤ 1 := by
  have hstep := on_notify_new_owner st0 first hE hNew
  constructor
  · rw [run_notify_cons, hstep, countCalls_append]
    have h0 := run_notify_stable_owner first.owner rest
      ({ starting_kolibri := true, owner := first.owner, has_error := false }) rfl rfl hRest
    simp only [hstep]
    rw [h0]
    decide
  · cases hf : first.is_started
    · have htw : (first :: rest).takeWhile (fun x => !x.is_started) =
          first :: rest.takeWhile (fun x => !x.is_started) := by
        rw [List.takeWhile_cons_of_pos]
        simp [hf]
      rw [htw, run_notify_cons, hstep]
      have hpass := run_notify_pass first.owner
        (rest.takeWhile (fun x => !x.is_started))
        ({ starting_kolibri := true, owner := first.owner, has_error := false })
        rfl rfl rfl
        (fun x hx => by
          have h1 : x.owner = first.owner :=
            hRest x (List.Sublist.mem hx (List.takeWhile_sublist _))
          have h2 : x.is_started = false := by
            have := List.mem_takeWhile_imp hx
            simpa using this
          exact ⟨h1, h2⟩)
      simp only [hpass]
      decide
    · have htw : (first :: rest).takeWhile (fun x => !x.is_started) = [] := by
        rw [List.takeWhile_cons_of_neg]
        simp [hf]
      rw [htw]
      simp [run_notify, countCalls]

/-- Witness for C2 (amended) on a concrete two-notification epoch. -/
theorem reconcile_epoch_amended_witness :
    countCalls DaemonCall.hold
      (run_notify (NotifyState.mk false none false)
        [DaemonObs.mk (some "own1") false false,
         DaemonObs.mk (some "own1") true false]).2 = 1 :=
  (reconcile_epoch_amended (NotifyState.mk false none false)
    (DaemonObs.mk (some "own1") false false)
    [DaemonObs.mk (some "own1") true false]
    rfl (by decide) (by decide)).1

/-- C3: evaluating `parse_kolibri_url` at the claim input shows the
code bug: `parse_qs` stores the value list, and the format call
interpolates the Python repr of that list, so the fragment ends in the
five-character sequence bracket-quote-math-quote-bracket rather than
in the plain value `math` that the claim states. -/
theorem parse_kolibri_url_searchterm_failing :
    parse_kolibri_url_target "kolibri:?searchTerm=math" =
      Except.ok ("/learn", "/search?searchTerm=" ++ pyListRepr ["math"]) ∧
    "/search?searchTerm=" ++ pyListRepr ["math"] ≠ "/search?searchTerm=math" :=
  ⟨rfl, by decide⟩

/-- C4 counterexample: the dispatch URI of the claim launches with the
positional URL `kolibri:///some/path` (the node path is passed to
`urlunparse` in the netloc slot, so an empty authority precedes it),
not `kolibri:some/path` as claimed. -/
theorem handle_uri_dispatch_counterexample :
    handle_uri "x-kolibri-dispatch://mychannel/some/path?search=1" =
      some ["--channel-id", "mychannel", "kolibri:///some/path"] ∧
    handle_uri "x-kolibri-dispatch://mychannel/some/path?search=1" ≠
      some ["--channel-id", "mychannel", "kolibri:some/path"] := by
  decide

/-- C4 (amended): the channel URI launches with only the channel-id
arguments; the dispatch URI launches with the channel-id arguments and
positional URL `kolibri:///some/path` (query dropped because a channel
id is present); any other scheme launches nothing. -/
theorem handle_uri_amended :
    handle_uri "kolibri-channel:/mychannel" = some ["--channel-id", "mychannel"] ∧
    handle_uri "x-kolibri-dispatch://mychannel/some/path?search=1" =
      some ["--channel-id", "mychannel", "kolibri:///some/path"] ∧
    (∀ uri : String, (urlsplit uri).scheme ≠ "kolibri-channel" →
      (urlsplit uri).scheme ≠ "x-kolibri-dispatch" → handle_uri uri = none) := by
  refine ⟨by decide, by decide, ?_⟩
  intro uri h1 h2
  unfold handle_uri
  simp [h1, h2]

/-- Witness for C4 (amended) on a URI with a foreign scheme. -/
theorem handle_uri_amended_witness :
    (urlsplit "https://example.com/x").scheme ≠ "kolibri-channel" ∧
    handle_uri "https://example.com/x" = none :=
  ⟨by decide, handle_uri_amended.2.2 "https://example.com/x" (by decide) (by decide)⟩

/-- C5: with no current language the resolver returns the fallback for
every filesystem and template (so the templated name is never
consulted); with a language it returns the full-code file if it
exists, else the base-language file if it exists, else the fallback.
The embedding is a total function, so no call raises. -/
theorem get_localized_file_spec (path_exists : String → Bool) (language : Option String)
    (file_path_template : String → String) (file_path_fallback : String) :
    ((language = none ∨ language = some "") →
      ∀ (pe2 : String → Bool) (t2 : String → String),
        get_localized_file pe2 language t2 file_path_fallback = file_path_fallback) ∧
    (∀ l, language = some l → l ≠ "" →
      get_localized_file path_exists language file_path_template file_path_fallback =
        (if path_exists (file_path_template l) then file_path_template l
         else if path_exists (file_path_template (langBase l)) then
           file_path_template (langBase l)
         else file_path_fallback)) := by
  constructor
  · rintro (h | h) pe2 t2 <;> simp [get_localized_file, h]
  · rintro l rfl hl
    unfold get_localized_file
    cases h1 : path_exists (file_path_template l) <;>
      cases h2 : path_exists (file_path_template (langBase l)) <;>
        simp [hl, h1, h2]

/-- Witness for C5: language `fr_FR` with only the `fr` file existing
resolves to the `fr` file. -/
theorem get_localized_file_spec_witness :
    get_localized_file (fun s => s == "assets/_load-fr.html") (some "fr_FR")
      (fun l => "assets/_load-" ++ l ++ ".html") "assets/_load.html" =
      "assets/_load-fr.html" := by
  have h := (get_localized_file_spec (fun s => s == "assets/_load-fr.html") (some "fr_FR")
    (fun l => "assets/_load-" ++ l ++ ".html") "assets/_load.html").2 "fr_FR" rfl (by decide)
  rw [h]
  decide

/-- C6: the `app_key` setter evaluates `bytes(app_key, encoding=ascii)`
before the `None` check, so calling it with the unset value raises
`TypeError` instead of clearing the became-known condition; the
clearing branch of the setter is unreachable. -/
theorem context_set_app_key_none_raises (ctx : ServiceContext) :
    context_set_app_key ctx none = Except.error PyErr.typeError := rfl

theorem load_url_seq_cons (d : ViewDelegate) (st : ViewState) (u : String) (us : List String) :
    load_url_seq d st (u :: us) =
      ((load_url_seq d (kolibri_view_load_url d st u).1 us).1,
       (kolibri_view_load_url d st u).2 ++
         (load_url_seq d (kolibri_view_load_url d st u).1 us).2) := rfl

/-- Once the error page is displayed and the delegate stays in error
state, further `load_url` calls leave the page unchanged and emit no
navigation effects. -/
theorem load_url_seq_error_fixed (d : ViewDelegate) (h : d.is_error = true) :
    ∀ (urls : List String) (st : ViewState),
      st.current_url = d.loader_url ++ "#error" →
      (load_url_seq d st urls).1.current_url = d.loader_url ++ "#error" ∧
      (load_url_seq d st urls).2 = [] := by
  intro urls
  induction urls with
  | nil => intro st hst; exact ⟨hst, rfl⟩
  | cons u us ih =>
    intro st hst
    have hstep : kolibri_view_load_url d st u = ({ st with target_url := some u }, []) := by
      unfold kolibri_view_load_url
      simp [h, hst]
    rw [load_url_seq_cons, hstep]
    have := ih { st with target_url := some u } (by simpa using hst)
    simpa using this

/-- C7: on a window whose delegate reports the error state, every
`load_url` call displays the loader URL with `#error` appended,
reloads it only when it is not already displayed, never displays the
requested target (when the target is not the error page itself), and
arbitrarily many further calls keep the error page displayed without
reloading. -/
theorem load_url_error_state (d : ViewDelegate) (st : ViewState) (url : String)
    (urls : List String) (h : d.is_error = true) :
    (kolibri_view_load_url d st url).1.current_url = d.loader_url ++ "#error" ∧
    ((kolibri_view_load_url d st url).2 =
      if st.current_url = d.loader_url ++ "#error" then []
      else [ViewEffect.superLoad (d.loader_url ++ "#error")]) ∧
    (url ≠ d.loader_url ++ "#error" →
      (kolibri_view_load_url d st url).1.current_url ≠ url) ∧
    (load_url_seq d (kolibri_view_load_url d st url).1 urls).1.current_url =
      d.loader_url ++ "#error" ∧
    (load_url_seq d (kolibri_view_load_url d st url).1 urls).2 = [] := by
  have hcur : (kolibri_view_load_url d st url).1.current_url = d.loader_url ++ "#error" := by
    unfold kolibri_view_load_url
    by_cases hc : st.current_url = d.loader_url ++ "#error" <;> simp [h, hc]
  refine ⟨hcur, ?_, ?_, ?_, ?_⟩
  · unfold kolibri_view_load_url
    by_cases hc : st.current_url = d.loader_url ++ "#error" <;> simp [h, hc]
  · intro hne
    rw [hcur]
    exact fun e => hne e.symm
  · exact (load_url_seq_error_fixed d h urls _ hcur).1
  · exact (load_url_seq_error_fixed d h urls _ hcur).2

/-- Witness for C7 on a concrete window in error state. -/
theorem load_url_error_state_witness :
    (kolibri_view_load_url
      (ViewDelegate.mk "file:///loader.html" true false (fun u => u))
      (ViewState.mk "about:blank" none) "http://x/a").1.current_url =
      "file:///loader.html" ++ "#error" :=
  (load_url_error_state (ViewDelegate.mk "file:///loader.html" true false (fun u => u))
    (ViewState.mk "about:blank" none) "http://x/a" [] rfl).1

/-- A resolved metadata record carries the item id it was requested for. -/
theorem get_metadata_some_id (lookup : String → NodeResult) (i : String) (m : SearchMetadata)
    (h : get_metadata_for_item_id lookup i = some m) : m.id = i := by
  unfold get_metadata_for_item_id node_data_to_search_metadata at h
  cases hr : lookup (item_id_to_node_id i) <;> rw [hr] at h
  · cases h
    rfl
  · cases h

/-- The ids of the returned metadata form a sublist of the requested
ids: order is preserved and unresolved entries are omitted. -/
theorem metadata_ids_sublist (lookup : String → NodeResult) (ids : List String) :
    ((get_metadata_for_item_ids lookup ids).map SearchMetadata.id).Sublist ids := by
  induction ids with
  | nil => simp [get_metadata_for_item_ids]
  | cons i t ih =>
    unfold get_metadata_for_item_ids at *
    simp only [List.map_cons, List.filterMap_cons]
    cases hg : get_metadata_for_item_id lookup i with
    | none => exact ih.cons i
    | some m =>
      simp only [List.map_cons]
      rw [get_metadata_some_id lookup i m hg]
      exact ih.cons₂ i

/-- C8: under the search endpoint honouring its `max_results` argument,
`get_item_ids_for_search` returns at most 10 ids; and for every input
list, `get_metadata_for_item_ids` returns at most as many entries as
requested, their ids form an order-preserving sublist of the requested
ids, every returned id is a requested id, and every unresolved id is
omitted from the result. -/
theorem search_handler_bounds (searchApi : String → Nat → List NodeData)
    (lookup : String → NodeResult) (query : String) (item_ids : List String)
    (hApi : ∀ q n, (searchApi q n).length ≤ n) :
    (get_item_ids_for_search searchApi query).length ≤ 10 ∧
    (get_metadata_for_item_ids lookup item_ids).length ≤ item_ids.length ∧
    ((get_metadata_for_item_ids lookup item_ids).map SearchMetadata.id).Sublist item_ids ∧
    (∀ m ∈ get_metadata_for_item_ids lookup item_ids, m.id ∈ item_ids) ∧
    (∀ i ∈ item_ids, get_metadata_for_item_id lookup i = none →
      i ∉ (get_metadata_for_item_ids lookup item_ids).map SearchMetadata.id) := by
  have hsub := metadata_ids_sublist lookup item_ids
  refine ⟨?_, ?_, hsub, ?_, ?_⟩
  · simpa [get_item_ids_for_search] using hApi query 10
  · simpa using hsub.length_le
  · intro m hm
    exact hsub.subset (List.mem_map_of_mem SearchMetadata.id hm)
  · intro i hi hnone hmem
    rcases List.mem_map.mp hmem with ⟨m, hm, hmi⟩
    rcases List.mem_filterMap.mp hm with ⟨a, ha, hae⟩
    rcases List.mem_map.mp ha with ⟨j, hj, hgj⟩
    have hje : get_metadata_for_item_id lookup j = some m := by rw [hgj]; exact hae
    have hmj : m.id = j := get_metadata_some_id lookup j m hje
    rw [hmi] at hmj
    rw [← hmj] at hje
    rw [hnone] at hje
    cases hje

/-- Witness for C8 on a concrete empty-result search endpoint. -/
theorem search_handler_bounds_witness :
    (get_item_ids_for_search (fun _ _ => ([] : List NodeData)) "math").length ≤ 10 :=
  (search_handler_bounds (fun _ _ => ([] : List NodeData)) (fun _ => NodeResult.notMapping)
    "math" ["c/a?x"] (fun _ n => by simp)).1

/-- C9: every URL classified internal is loaded in-window, and
`should_load_url` accepts beyond that only URLs of scheme `about` and
the loader URL. -/
theorem should_load_url_extends_is_internal_url (app : AppUrlModel)
    (window_accepts : Option (String → Bool)) (url : String) :
    (app_is_internal_url app window_accepts url = true →
      app_should_load_url app window_accepts url = true) ∧
    (app_should_load_url app window_accepts url = true →
      app_is_internal_url app window_accepts url = true ∨
        (urlsplit url).scheme = "about" ∨ url = app.loader_url) := by
  constructor
  · intro h
    simp [app_should_load_url, h]
  · intro h
    by_cases hi : app_is_internal_url app window_accepts url = true
    · exact Or.inl hi
    · right
      simp [app_should_load_url, hi] at h
      by_cases ha : (urlsplit url).scheme = "about" ∨ url = app.loader_url
      · exact ha
      · simp [ha] at h

/-- Witness for C9 on a `kolibri:` scheme URL. -/
theorem should_load_url_extends_witness :
    app_is_internal_url (AppUrlModel.mk "file:///l" false (fun _ => false)) none
      "kolibri:abc" = true ∧
    app_should_load_url (AppUrlModel.mk "file:///l" false (fun _ => false)) none
      "kolibri:abc" = true :=
  ⟨by decide,
   (should_load_url_extends_is_internal_url
     (AppUrlModel.mk "file:///l" false (fun _ => false)) none "kolibri:abc").1 (by decide)⟩

theorem partAfter_kind_code (k : Char) (rest : List Char) (hk : k ≠ '/') :
    partAfter '/' (k :: '/' :: rest) = rest := by
  simp [partAfter, hk]

theorem partBefore_no_sep (sep : Char) (l r : List Char) (h : ∀ c ∈ l, c ≠ sep) :
    partBefore sep (l ++ sep :: r) = l := by
  induction l with
  | nil => simp [partBefore]
  | cons c cs ih =>
    have hc : c ≠ sep := h c (by simp)
    simp [partBefore, hc]
    exact ih (fun x hx => h x (by simp [hx]))

/-- C10: for every node data mapping whose id is a string free of
question marks, decoding the encoded item id returns exactly that id,
for any kind and channel id. -/
theorem item_id_round_trip (d : NodeData) (i : String)
    (hid : d.id = some i) (hq : ∀ c ∈ i.data, c ≠ '?') :
    item_id_to_node_id (node_data_to_item_id d) = i := by
  have hdata : (node_data_to_item_id d).data
      = (if d.kind = some "topic" then 't' else 'c') :: '/' ::
          (i.data ++ '?' :: (pyStr d.channel_id).data) := by
    unfold node_data_to_item_id
    by_cases hk : d.kind = some "topic" <;> simp [hk, hid, pyStr]
  apply String.ext
  have hrfl : (item_id_to_node_id (node_data_to_item_id d)).data
      = partBefore '?' (partAfter '/' (node_data_to_item_id d).data) := rfl
  rw [hrfl, hdata]
  by_cases hk : d.kind = some "topic"
  · rw [if_pos hk, partAfter_kind_code 't' _ (by decide),
      partBefore_no_sep '?' i.data _ hq]
  · rw [if_neg hk, partAfter_kind_code 'c' _ (by decide),
      partBefore_no_sep '?' i.data _ hq]

/-- Witness for C10 on a concrete topic node. -/
theorem item_id_round_trip_witness :
    item_id_to_node_id (node_data_to_item_id
      (NodeData.mk (some "ABC123") (some "chan0") (some "topic") none none)) = "ABC123" :=
  item_id_round_trip (NodeData.mk (some "ABC123") (some "chan0") (some "topic") none none)
    "ABC123" rfl (by decide)
